import Mathlib

/-!
Verification of the extism core: the manifest capability model
(`manifest/src/lib.rs`) and the host/guest memory bridge with resource
limiting (`runtime/src/current_plugin.rs`).

The Rust code is shallowly embedded:
* machine integers (`u32`, `u64`, `usize` on a 64-bit target) become `Nat`,
  with an explicit `% 2 ^ 64` wherever wraparound matters (pointer
  arithmetic, `i64`-to-`u64` casts of guest return values);
* `BTreeMap` and `Vec` become association lists and `List`;
* a fallible Rust function returning `Result` becomes a function into
  `HostResult`, whose `err` constructor is a propagated `Err` value and
  whose `panicked` constructor marks a reachable Rust panic
  (`unwrap` on `None`, slice-length mismatch in `copy_from_slice`,
  `usize` subtraction underflow);
* the wasmtime linker is embedded as a record of the optional guest
  exports the bridge looks up by name, each export a pure function from
  its argument to the value the guest call returns (guest-side state and
  guest traps are outside the bridge code being verified);
* calls into the guest allocator are counted, so that "does not invoke
  the guest allocator" is a statement about the embedded function.
-/

namespace Extism

/-! ## Manifest model (`manifest/src/lib.rs`) -/

/-- Rust `HttpRequest`: url, headers (BTreeMap as an association list), method. -/
structure HttpRequest where
  url : String
  headers : List (String × String)
  method : Option String
  deriving DecidableEq, Repr

/-- Rust `WasmMetadata`: optional module name and content hash. -/
structure WasmMetadata where
  name : Option String
  hash : Option String
  deriving DecidableEq, Repr

/-- The `Wasm` module-source union: `File` (path), `Data` (inline bytes,
each byte a `Nat < 256`), `Url` (HTTP request); each carries metadata. -/
inductive Wasm where
  | file (path : String) (meta : WasmMetadata)
  | data (data : List Nat) (meta : WasmMetadata)
  | url (req : HttpRequest) (meta : WasmMetadata)
  deriving DecidableEq, Repr

/-- Rust `MemoryOptions { max_pages: Option<u32> }`. -/
structure MemoryOptions where
  max_pages : Option Nat
  deriving DecidableEq, Repr

/-- The `Manifest` struct: module list, memory options, config map,
optional allowed hosts, optional allowed paths, optional timeout. -/
structure Manifest where
  wasm : List Wasm
  memory : MemoryOptions
  config : List (String × String)
  allowed_hosts : Option (List String)
  allowed_paths : Option (List (String × String))
  timeout_ms : Option Nat
  deriving DecidableEq, Repr

/-- Rust `default_timeout()`: the serde default for `timeout_ms`, 30000 ms. -/
def default_timeout : Option Nat := some 30000

/-- The derived `Default` for `Manifest` (`#[derive(Default, ...)]`): every
field takes its own `Default` — empty `Vec`, empty maps, `None` for every
`Option`, including `timeout_ms` (the `#[serde(default = "default_timeout")]`
attribute applies only to deserialization, not to `Default::default()`). -/
def Manifest.default : Manifest :=
  { wasm := []
    memory := { max_pages := none }
    config := []
    allowed_hosts := none
    allowed_paths := none
    timeout_ms := none }

/-- Rust `Manifest::new(wasm)`: collects the module sources, sets
`timeout_ms: default_timeout()`, and takes every other field from
`..Default::default()`. -/
def Manifest.new (wasm : List Wasm) : Manifest :=
  { Manifest.default with wasm := wasm, timeout_ms := default_timeout }

/-- Rust `Manifest::disallow_all_hosts()`: sets `allowed_hosts = Some(vec![])`
and returns the manifest otherwise unchanged. -/
def Manifest.disallow_all_hosts (m : Manifest) : Manifest :=
  { m with allowed_hosts := some [] }

/-! ## Resource limiter (`MemoryLimiter` in `current_plugin.rs`) -/

/-- Rust `MemoryLimiter { bytes_left: usize, max_bytes: usize }`. -/
structure MemoryLimiter where
  bytes_left : Nat
  max_bytes : Nat
  deriving DecidableEq, Repr

/-- Rust `MemoryLimiter::reset()`: restore the full budget. -/
def MemoryLimiter.reset (l : MemoryLimiter) : MemoryLimiter :=
  { l with bytes_left := l.max_bytes }

/-- The first guard of `memory_growing`: a declared maximum exists and
`desired >= max`. -/
def maxExceeded (desired : Nat) : Option Nat → Bool
  | some max => desired ≥ max
  | none => false

/-- Rust `MemoryLimiter::memory_growing(current, desired, maximum)`.
Returns `some (post-state, Err "oom")` on rejection (the early `return Err`
leaves the state unchanged), `some (post-state, Ok true)` on allowed growth,
and `none` where the Rust `desired - current` underflows `usize` and the
call panics. The source checks the declared maximum first, so that check is
reached even when `desired < current`. -/
def MemoryLimiter.memory_growing (l : MemoryLimiter) (current desired : Nat)
    (maximum : Option Nat) : Option (MemoryLimiter × Except String Bool) :=
  if maxExceeded desired maximum then some (l, Except.error "oom")
  else if desired < current then none
  else
    let d := desired - current
    if d > l.bytes_left then some (l, Except.error "oom")
    else some ({ l with bytes_left := l.bytes_left - d }, Except.ok true)

/-- Rust `MemoryLimiter::table_growing(current, desired, maximum)`: with a
declared maximum, `Ok(desired <= max)`; otherwise `Ok(true)`. Never touches
the byte budget. -/
def MemoryLimiter.table_growing (l : MemoryLimiter) (_current desired : Nat)
    (maximum : Option Nat) : MemoryLimiter × Except String Bool :=
  match maximum with
  | some max => (l, Except.ok (decide (desired ≤ max)))
  | none => (l, Except.ok true)

/-- One limiter invocation by the engine: a memory-growth or a table-growth
request with its arguments. -/
inductive LimiterOp where
  | mem (current desired : Nat) (maximum : Option Nat)
  | table (current desired : Nat) (maximum : Option Nat)
  deriving DecidableEq, Repr

/-- The limiter state after one invocation, whether it allowed or rejected;
`none` when the invocation panics. -/
def LimiterOp.apply (l : MemoryLimiter) : LimiterOp → Option MemoryLimiter
  | .mem c d m => (l.memory_growing c d m).map Prod.fst
  | .table c d m => some (l.table_growing c d m).fst

/-- The limiter state after a sequence of invocations (no `reset` between
them), `none` as soon as one panics. -/
def runOps (l : MemoryLimiter) : List LimiterOp → Option MemoryLimiter
  | [] => some l
  | op :: ops =>
    match op.apply l with
    | none => none
    | some l2 => runOps l2 ops

/-! ## Memory bridge (`CurrentPlugin` in `current_plugin.rs`) -/

/-- Rust `MemoryHandle { offset: u64, length: u64 }`. -/
structure MemoryHandle where
  offset : Nat
  length : Nat
  deriving DecidableEq, Repr

/-- Outcome of a host-side bridge operation: a returned value, a propagated
`Err` (`anyhow::bail!` / `?`), or a Rust panic (`unwrap` on a missing
export, mismatched `copy_from_slice`). -/
inductive HostResult (α : Type) where
  | ok (a : α)
  | err (msg : String)
  | panicked
  deriving DecidableEq, Repr

/-- The linker's `"env"` namespace as the bridge looks it up: the base
pointer of the exported linear `memory` (a `usize` address, `0` = null) and
the optional guest ABI exports, each modelled by the value its call
returns. -/
structure Linker where
  memory : Option Nat
  extism_alloc : Option (Nat → Nat)
  extism_free : Option Unit
  extism_length : Option (Nat → Nat)
  extism_error_set : Option Unit
  extism_error_get : Option Nat

/-- Rust `CurrentPlugin::memory_bytes(handle)`: look up the `memory` export
(`unwrap` panics when it is missing), compute
`ptr = base.add(handle.offset)` (wrapping `usize` arithmetic), return the
empty slice when `ptr` is null, and otherwise the view
`from_raw_parts_mut(ptr, handle.len())` — embedded as the pair
(address, length) of the returned view. -/
def memory_bytes (lk : Linker) (handle : MemoryHandle) :
    HostResult (Nat × Nat) :=
  match lk.memory with
  | none => .panicked
  | some base =>
    let ptr := (base + handle.offset) % 2 ^ 64
    if ptr = 0 then .ok (0, 0)
    else .ok (ptr, handle.length)

/-- Rust `CurrentPlugin::memory_alloc(n)`: `n == 0` returns the sentinel handle
without touching the linker; otherwise the `extism_alloc` export is looked
up (`bail!("Unable to allocate memory")` when missing, before any call) and
called once; a returned offset of `0` is `bail!("out of memory")`. The
second component counts calls into the guest allocator. -/
def memory_alloc (lk : Linker) (n : Nat) : HostResult MemoryHandle × Nat :=
  if n = 0 then (.ok { offset := 0, length := 0 }, 0)
  else
    match lk.extism_alloc with
    | none => (.err "Unable to allocate memory", 0)
    | some f =>
      let offs := f n % 2 ^ 64
      if offs = 0 then (.err "out of memory", 1)
      else (.ok { offset := offs, length := n }, 1)

/-- Rust `CurrentPlugin::memory_free(handle)`: looks up `extism_free` with
`.unwrap()` — a missing export panics — and calls it with the offset. -/
def memory_free (lk : Linker) (_handle : MemoryHandle) : HostResult Unit :=
  match lk.extism_free with
  | none => .panicked
  | some _ => .ok ()

/-- Rust `CurrentPlugin::memory_length(offs)`: looks up `extism_length` with
`.unwrap()` — a missing export panics — and returns the guest's answer as
`u64`. -/
def memory_length (lk : Linker) (offs : Nat) : HostResult Nat :=
  match lk.extism_length with
  | none => .panicked
  | some f => .ok (f offs % 2 ^ 64)

/-- Rust `CurrentPlugin::clear_error()`: `if let Some(f) = linker.get(...)` — a
missing `extism_error_set` export silently skips the call and the function
returns normally either way. -/
def clear_error (lk : Linker) : HostResult Unit :=
  match lk.extism_error_set with
  | none => .ok ()
  | some _ => .ok ()

/-- Rust `CurrentPlugin::has_error()`: looks up `extism_error_get` with
`.unwrap()` — a missing export panics — and reports whether the returned
offset is non-zero. -/
def has_error (lk : Linker) : HostResult Bool :=
  match lk.extism_error_get with
  | none => .panicked
  | some v => .ok (v % 2 ^ 64 != 0)

/-- Rust `CurrentPlugin::memory_new(t)`: `t.to_bytes()?` runs first (its outcome
is the `ser` argument, since `ToBytes` is caller-supplied) and a
serialization error propagates before anything else; then
`memory_alloc(data.len())`, then `memory_bytes(handle)?`, then
`copy_from_slice` — which panics when the view's length differs from the
data's. The count of guest-allocator calls is threaded through. -/
def memory_new (lk : Linker) (ser : Except String (List Nat)) :
    HostResult MemoryHandle × Nat :=
  match ser with
  | .error e => (.err e, 0)
  | .ok data =>
    match memory_alloc lk data.length with
    | (.ok handle, k) =>
      match memory_bytes lk handle with
      | .ok view =>
        if view.2 = data.length then (.ok handle, k) else (.panicked, k)
      | .err e => (.err e, k)
      | .panicked => (.panicked, k)
    | (.err e, k) => (.err e, k)
    | (.panicked, k) => (.panicked, k)

/-- A linker offering every export, for concrete evaluations. -/
def lkFull : Linker :=
  { memory := some 1024
    extism_alloc := some fun _ => 64
    extism_free := some ()
    extism_length := some fun _ => 0
    extism_error_set := some ()
    extism_error_get := some 0 }

/-- A linker offering no export at all. -/
def lkEmpty : Linker :=
  { memory := none
    extism_alloc := none
    extism_free := none
    extism_length := none
    extism_error_set := none
    extism_error_get := none }



/-! ## Helper lemmas -/

/-- On the success path, `memory_alloc` returns a handle whose length is
exactly the requested byte count. -/
theorem memory_alloc_ok_length {lk : Linker} {n : Nat} {h : MemoryHandle}
    {k : Nat} (he : memory_alloc lk n = (.ok h, k)) : h.length = n := by
  unfold memory_alloc at he
  split at he
  · next hzero =>
    cases he
    simpa using hzero.symm
  · cases halloc : lk.extism_alloc with
    | none => rw [halloc] at he; cases he
    | some f =>
      rw [halloc] at he
      simp only at he
      split at he
      · cases he
      · cases he; rfl

/-- One limiter invocation never increases `bytes_left`. -/
theorem LimiterOp.apply_bytes_le {l l2 : MemoryLimiter} {op : LimiterOp}
    (h : op.apply l = some l2) : l2.bytes_left ≤ l.bytes_left := by
  cases op with
  | mem c d m =>
    simp only [LimiterOp.apply] at h
    rcases Option.map_eq_some'.mp h with ⟨p, hp, hfst⟩
    unfold MemoryLimiter.memory_growing at hp
    split at hp
    · cases hp
      cases hfst
      exact Nat.le_refl _
    · split at hp
      · cases hp
      · simp only [gt_iff_lt] at hp
        split at hp
        · cases hp
          cases hfst
          exact Nat.le_refl _
        · cases hp
          cases hfst
          exact Nat.sub_le _ _
  | table c d m =>
    simp only [LimiterOp.apply, MemoryLimiter.table_growing] at h
    cases m with
    | none =>
      cases h
      exact Nat.le_refl _
    | some max =>
      simp only at h
      cases h
      exact Nat.le_refl _

/-! ## The claims -/

/-- C1, counterexample: `Manifest::default()` does not give
`timeout_ms = Some(30000)`. -/
theorem C1_default_timeout_counterexample :
    Manifest.default.timeout_ms ≠ some 30000 := by decide

/-- C1 (amended): a default-constructed `Manifest` has `timeout_ms = None`;
the 30000-millisecond default is the value of `default_timeout` and is
applied by `Manifest::new`, not by the derived `Default`. -/
theorem C1_default_timeout_amended :
    Manifest.default.timeout_ms = none ∧
    default_timeout = some 30000 ∧
    ∀ ws : List Wasm, (Manifest.new ws).timeout_ms = some 30000 :=
  ⟨rfl, rfl, fun _ => rfl⟩

/-- C2 (code bug): at a null linear-memory base pointer and the handle
`{offset: 8, length: 4}`, `memory_bytes` returns a non-empty 4-byte view at
the dangling address 8 instead of the empty view: the null check runs after
the offset has been added to the base, so it cannot fire for a null base
with a non-zero offset. -/
theorem C2_null_base_dangling_view :
    memory_bytes { lkFull with memory := some 0 }
        { offset := 8, length := 4 } = .ok (8, 4) ∧
    memory_bytes { lkFull with memory := some 0 }
        { offset := 8, length := 4 } ≠ .ok (0, 0) := by
  constructor <;> decide

/-- C3: `memory_growing(current, desired, maximum)` rejects with an
out-of-memory error when a declared maximum exists and `desired ≥ max`;
otherwise, with `delta = desired - current`, it rejects when
`delta > bytes_left`; otherwise it allows the growth and the post-state
satisfies `bytes_left' = bytes_left - delta`. Rejection leaves the state
unchanged. -/
theorem C3_memory_growing_spec (l : MemoryLimiter) (current desired : Nat)
    (maximum : Option Nat) (hcd : current ≤ desired) :
    (∀ max, maximum = some max → max ≤ desired →
      l.memory_growing current desired maximum =
        some (l, Except.error "oom")) ∧
    ((∀ max, maximum = some max → desired < max) →
      l.bytes_left < desired - current →
      l.memory_growing current desired maximum =
        some (l, Except.error "oom")) ∧
    ((∀ max, maximum = some max → desired < max) →
      desired - current ≤ l.bytes_left →
      l.memory_growing current desired maximum =
        some ({ l with bytes_left := l.bytes_left - (desired - current) },
          Except.ok true)) := by
  refine ⟨?_, ?_, ?_⟩
  · rintro max rfl hmax
    have hm : maxExceeded desired (some max) = true := by
      simp only [maxExceeded, decide_eq_true_eq]
      omega
    simp [MemoryLimiter.memory_growing, hm]
  · intro hunder hbudget
    have hfalse : maxExceeded desired maximum = false := by
      cases maximum with
      | none => rfl
      | some max =>
        have := hunder max rfl
        simp only [maxExceeded, decide_eq_false_iff_not]
        omega
    simp [MemoryLimiter.memory_growing, hfalse, Nat.not_lt.mpr hcd, hbudget]
  · intro hunder hbudget
    have hfalse : maxExceeded desired maximum = false := by
      cases maximum with
      | none => rfl
      | some max =>
        have := hunder max rfl
        simp only [maxExceeded, decide_eq_false_iff_not]
        omega
    simp [MemoryLimiter.memory_growing, hfalse, Nat.not_lt.mpr hcd,
      Nat.not_lt.mpr hbudget]

/-- C3 witness: from a budget of 100 bytes, an allowed growth from 0 to 30
bytes with no declared maximum leaves 70 bytes. -/
theorem C3_memory_growing_spec_witness :
    (MemoryLimiter.mk 100 200).memory_growing 0 30 none =
      some ({ MemoryLimiter.mk 100 200 with bytes_left := 100 - (30 - 0) },
        Except.ok true) :=
  (C3_memory_growing_spec (MemoryLimiter.mk 100 200) 0 30 none
    (by decide)).2.2 (fun max h => by cases h) (by decide)

/-- C4, counterexample: with every guest ABI export missing, `memory_free`,
`memory_length` and `has_error` panic (an `unwrap` on the missing export)
instead of propagating an error value, and `clear_error` silently returns
success — so not every Memory Bridge / Error Channel operation propagates a
distinguishable error value on a missing export. -/
theorem C4_missing_export_counterexample :
    memory_free lkEmpty { offset := 8, length := 4 } = .panicked ∧
    memory_length lkEmpty 8 = .panicked ∧
    has_error lkEmpty = .panicked ∧
    clear_error lkEmpty = .ok () :=
  ⟨rfl, rfl, rfl, rfl⟩

/-- C4 (amended): only `memory_alloc` reports a missing guest export as a
propagated error value (`"Unable to allocate memory"`, for every non-zero
request, before any guest call); `memory_free`, `memory_length` and
`has_error` panic on a missing export, and `clear_error` silently does
nothing when `extism_error_set` is missing. -/
theorem C4_missing_export_amended (lk : Linker) (n : Nat) (hn : n ≠ 0)
    (ha : lk.extism_alloc = none) (hf : lk.extism_free = none)
    (hl : lk.extism_length = none) (hg : lk.extism_error_get = none)
    (handle : MemoryHandle) (offs : Nat) :
    memory_alloc lk n = (.err "Unable to allocate memory", 0) ∧
    memory_free lk handle = .panicked ∧
    memory_length lk offs = .panicked ∧
    has_error lk = .panicked ∧
    clear_error lk = .ok () := by
  refine ⟨?_, ?_, ?_, ?_, ?_⟩
  · unfold memory_alloc
    rw [if_neg hn, ha]
  · unfold memory_free
    rw [hf]
  · unfold memory_length
    rw [hl]
  · unfold has_error
    rw [hg]
  · unfold clear_error
    cases h : lk.extism_error_set <;> simp

/-- C4 witness: the amended statement evaluated on the empty linker at a
1-byte allocation, the handle `{8, 4}` and offset 8. -/
theorem C4_missing_export_amended_witness :
    memory_alloc lkEmpty 1 = (.err "Unable to allocate memory", 0) ∧
    memory_free lkEmpty { offset := 8, length := 4 } = .panicked ∧
    memory_length lkEmpty 8 = .panicked ∧
    has_error lkEmpty = .panicked ∧
    clear_error lkEmpty = .ok () :=
  C4_missing_export_amended lkEmpty 1 (by decide) rfl rfl rfl rfl
    { offset := 8, length := 4 } 8

/-- C5: across every sequence of limiter operations (memory growth and
table growth, allowed or rejected, no reset) that completes without a
panic, `bytes_left` never increases. -/
theorem C5_budget_monotone (l : MemoryLimiter) (ops : List LimiterOp)
    (l2 : MemoryLimiter) (h : runOps l ops = some l2) :
    l2.bytes_left ≤ l.bytes_left := by
  induction ops generalizing l with
  | nil =>
    unfold runOps at h
    cases h
    exact Nat.le_refl _
  | cons op ops ih =>
    unfold runOps at h
    cases hop : op.apply l with
    | none => rw [hop] at h; cases h
    | some l3 =>
      rw [hop] at h
      exact Nat.le_trans (ih l3 h) (LimiterOp.apply_bytes_le hop)

/-- C5 witness: an allowed 10-byte memory growth, a rejected oversized
growth, and a table growth leave the budget at 90 of the initial 100. -/
theorem C5_budget_monotone_witness :
    (MemoryLimiter.mk 90 100).bytes_left ≤
      (MemoryLimiter.mk 100 100).bytes_left :=
  C5_budget_monotone (MemoryLimiter.mk 100 100)
    [LimiterOp.mem 0 10 none, LimiterOp.mem 10 500 none,
     LimiterOp.table 0 5 (some 4)]
    (MemoryLimiter.mk 90 100) (by decide)

/-- C6: `memory_new` propagates a serialization failure before any guest
allocator call (zero allocator invocations on that path), and on success
returns a handle whose length is exactly the encoded byte length. -/
theorem C6_memory_new_transaction (lk : Linker)
    (ser : Except String (List Nat)) :
    (∀ e, ser = .error e → memory_new lk ser = (.err e, 0)) ∧
    (∀ data handle k, ser = .ok data →
      memory_new lk ser = (.ok handle, k) →
      handle.length = data.length) := by
  constructor
  · rintro e rfl
    rfl
  · rintro data handle k rfl h
    unfold memory_new at h
    simp only at h
    cases halloc : memory_alloc lk data.length with
    | mk res k0 =>
      rw [halloc] at h
      cases res with
      | ok h0 =>
        simp only at h
        cases hbytes : memory_bytes lk h0 with
        | ok view =>
          rw [hbytes] at h
          simp only at h
          split at h
          · cases h
            exact memory_alloc_ok_length halloc
          · cases h
        | err e => rw [hbytes] at h; cases h
        | panicked => rw [hbytes] at h; cases h
      | err e => cases h
      | panicked => cases h

/-- C6 witness: a failing serialization propagates with zero allocator
calls, and a successful 3-byte serialization yields a 3-byte handle. -/
theorem C6_memory_new_transaction_witness :
    memory_new lkFull (Except.error "boom") = (.err "boom", 0) ∧
    MemoryHandle.length { offset := 64, length := 3 } =
      List.length [1, 2, 3] :=
  ⟨(C6_memory_new_transaction lkFull (Except.error "boom")).1 "boom" rfl,
   (C6_memory_new_transaction lkFull (Except.ok [1, 2, 3])).2 [1, 2, 3]
     { offset := 64, length := 3 } 1 rfl (by decide)⟩

/-- C7: `memory_alloc(0)` returns the sentinel handle `{0, 0}` with zero
invocations of the guest allocator, for every linker — the short-circuit
happens before any export lookup or guest call. -/
theorem C7_alloc_zero_sentinel (lk : Linker) :
    memory_alloc lk 0 = (.ok { offset := 0, length := 0 }, 0) := rfl

/-- C8: `disallow_all_hosts` sets `allowed_hosts` to `Some([])` — an
explicit empty list, distinct from `None` — whatever the prior value, and
changes no other field of the manifest. -/
theorem C8_disallow_all_hosts_spec (m : Manifest) :
    m.disallow_all_hosts.allowed_hosts = some [] ∧
    m.disallow_all_hosts.allowed_hosts ≠ none ∧
    m.disallow_all_hosts.wasm = m.wasm ∧
    m.disallow_all_hosts.memory = m.memory ∧
    m.disallow_all_hosts.config = m.config ∧
    m.disallow_all_hosts.allowed_paths = m.allowed_paths ∧
    m.disallow_all_hosts.timeout_ms = m.timeout_ms :=
  ⟨rfl, by simp [Manifest.disallow_all_hosts], rfl, rfl, rfl, rfl, rfl⟩

/-- C9: when the declared-maximum guard does not fire, `memory_growing` is
total (returns a result) exactly when `desired ≥ current`; for
`desired < current` the `usize` subtraction underflows and the call panics
instead of rejecting. -/
theorem C9_subtraction_underflow (l : MemoryLimiter) (current desired : Nat)
    (maximum : Option Nat) (hmax : maxExceeded desired maximum = false) :
    (current ≤ desired →
      (l.memory_growing current desired maximum).isSome = true) ∧
    (desired < current → l.memory_growing current desired maximum = none) := by
  constructor
  · intro h
    have h2 : ¬ desired < current := Nat.not_lt.mpr h
    by_cases hb : l.bytes_left < desired - current
    · simp [MemoryLimiter.memory_growing, hmax, h2, hb]
    · simp [MemoryLimiter.memory_growing, hmax, h2, hb]
  · intro h
    simp [MemoryLimiter.memory_growing, hmax, h]

/-- C9 witness: shrinking from 5 to 2 with no declared maximum panics;
growing from 2 to 5 returns a result. -/
theorem C9_subtraction_underflow_witness :
    (MemoryLimiter.mk 10 10).memory_growing 5 2 none = none ∧
    ((MemoryLimiter.mk 10 10).memory_growing 2 5 none).isSome = true :=
  ⟨(C9_subtraction_underflow (MemoryLimiter.mk 10 10) 5 2 none rfl).2
      (by decide),
   (C9_subtraction_underflow (MemoryLimiter.mk 10 10) 2 5 none rfl).1
      (by decide)⟩

/-- C10: `Manifest::new` always sets `timeout_ms = Some(30000)` (for every
module list), whereas the derived `Default::default()` leaves
`timeout_ms = None`: the 30000 ms default comes from `Manifest::new` and
the deserialization default `default_timeout`, not from `Default`. -/
theorem C10_new_timeout_vs_default :
    (∀ ws : List Wasm, (Manifest.new ws).timeout_ms = some 30000) ∧
    Manifest.default.timeout_ms = none ∧
    default_timeout = some 30000 :=
  ⟨fun _ => rfl, rfl, rfl⟩

end Extism
